import Mathlib

/-!
Verification of the UbuzimaHC front-end authentication layer.

The repository has two pieces of logic:
* `EnvironmentCheck`, a banner component whose only logic is the
  `isConfigured` test over the two Supabase environment strings; and
* `useAuth`, a React hook wrapping the Supabase SDK.  Its observable
  behaviour is the sequence of React state-setter calls
  (`setUser`, `setSession`, `setLoading`, `setError`) and network
  requests each operation performs, together with the value the
  operation returns or the error it throws.

We embed each operation as a pure function from its inputs and the
outcomes of the backend calls it awaits to the list of effects it
performs (an `Event` trace) paired with its `Except` result.  Folding
the trace over a `HookState` gives the hook state after the operation
settles.  Backend outcomes are parameters because the backend is an
external collaborator; everything the repository itself does is
translated line by line from src/src/components/EnvironmentCheck.tsx.
-/

namespace UbuzimaHC

/-- The base Supabase auth user (the fields this code reads: `id`; `email`
is carried along since sign-up records it). -/
structure User where
  id : String
  email : Option String := none
deriving DecidableEq, BEq, Repr

/-- A Supabase session; the hook treats it as opaque apart from `session.user`. -/
structure Session where
  access_token : String
  user : User
deriving DecidableEq, BEq, Repr

/-- The `UserProfile` interface of the source, field for field.  Optional
TypeScript fields become `Option`. -/
structure UserProfile where
  id : String
  full_name : String
  phone_number : String
  role : String
  district : Option String := none
  sector : Option String := none
  cell : Option String := none
  emergency_contact_name : Option String := none
  emergency_contact_phone : Option String := none
  insurance_provider : Option String := none
  insurance_number : Option String := none
  profile_image_url : Option String := none
  date_of_birth : Option String := none
  gender : Option String := none
  email : Option String := none
  address : Option String := none
  language_preference : Option String := none
  is_active : Option Bool := none
  email_verified : Option Bool := none
  phone_verified : Option Bool := none
  created_at : Option String := none
  updated_at : Option String := none
  last_login : Option String := none
deriving DecidableEq, BEq, Repr

/-- `interface AuthUser extends User \x7b profile?: UserProfile \x7d`. -/
structure AuthUser extends User where
  profile : Option UserProfile := none
deriving DecidableEq, BEq, Repr

/-- One observable effect of the hook body: a React state-setter call or a
network request issued to the backend (identified by the SDK entry point). -/
inductive Event where
  | setUser (u : Option AuthUser)
  | setSession (s : Option Session)
  | setLoading (b : Bool)
  | setError (e : Option String)
  | net (call : String)
deriving DecidableEq, BEq, Repr

/-- The four `useState` fields of `useAuth`. -/
structure HookState where
  user : Option AuthUser := none
  session : Option Session := none
  loading : Bool := true
  error : Option String := none
deriving DecidableEq, BEq, Repr

/-- `useState` initial values: `user = null`, `session = null`,
`loading = true`, `error = null`. -/
def initialState : HookState := {}

/-- Effect of a single setter call on the hook state; a network request
does not touch local state. -/
def applyEvent (st : HookState) : Event → HookState
  | Event.setUser u => { st with user := u }
  | Event.setSession s => { st with session := s }
  | Event.setLoading b => { st with loading := b }
  | Event.setError e => { st with error := e }
  | Event.net _ => st

/-- Hook state after a trace of effects has been applied. -/
def run (st : HookState) (evs : List Event) : HookState :=
  evs.foldl applyEvent st

/-- What `supabase.auth.signUp` / `signInWithPassword` resolve with:
`\x7b data: \x7b user, session \x7d \x7d`. -/
structure AuthData where
  user : Option User := none
  session : Option Session := none
deriving DecidableEq, BEq, Repr

/-- The `userData` argument of `signUp`, field for field. -/
structure SignUpUserData where
  full_name : String
  phone_number : String
  date_of_birth : Option String := none
  gender : Option String := none
  district : Option String := none
  sector : Option String := none
  cell : Option String := none
deriving DecidableEq, BEq, Repr

/-- The `updates` argument of `updateProfile`, field for field. -/
structure ProfileUpdates where
  full_name : Option String := none
  phone_number : Option String := none
  district : Option String := none
  sector : Option String := none
  cell : Option String := none
  emergency_contact_name : Option String := none
  emergency_contact_phone : Option String := none
  insurance_provider : Option String := none
  insurance_number : Option String := none
deriving DecidableEq, BEq, Repr

/-- `EnvironmentCheck` lines 8-10:
`supabaseUrl && supabaseAnonKey && supabaseUrl !== placeholderUrl &&
supabaseAnonKey !== placeholderKey`.  A missing or empty environment
string is falsy in JavaScript, so both cases are modelled as `""`. -/
def isConfigured (supabaseUrl supabaseAnonKey : String) : Bool :=
  !(supabaseUrl == "") && !(supabaseAnonKey == "") &&
  supabaseUrl != "your_supabase_project_url_here" &&
  supabaseAnonKey != "your_supabase_anon_key_here"

/-- `loadUserProfile(authUser)`: sets loading, fetches the profile row;
on success stores the user with the profile attached, on a thrown error
stores the bare auth user (profile left undefined); finally clears
loading.  `profileRes` is the outcome of `dbHelpers.getUserById`. -/
def loadUserProfile (authUser : User) (profileRes : Except String UserProfile) :
    List Event :=
  [Event.setLoading true, Event.net "dbHelpers.getUserById"] ++
  (match profileRes with
   | Except.ok p => [Event.setUser (some { toUser := authUser, profile := some p })]
   | Except.error _ => [Event.setUser (some { toUser := authUser, profile := none })]) ++
  [Event.setLoading false]

/-- How `supabase.auth.getSession()` can settle: resolve with a session
(possibly absent), resolve with an error object, or reject (throw). -/
inductive GetSessionResult where
  | ok (s : Option Session)
  | err (msg : String)
  | thrown
deriving DecidableEq, BEq, Repr

/-- `getInitialSession` of the mount effect, lines 72-97.  `mounted` is the
value of the in-memory flag when the awaited call settles (it only ever
moves from true to false, at teardown).  Note the translation keeps two
quirks of the source: the error-object branch returns before the
`mounted` check and never calls `setLoading(false)`, while the catch
branch checks `mounted` and does clear loading. -/
def getInitialSession (mounted : Bool) (res : GetSessionResult)
    (profileRes : Except String UserProfile) : List Event :=
  Event.net "supabase.auth.getSession" ::
  match res with
  | GetSessionResult.err msg => [Event.setError (some msg)]
  | GetSessionResult.ok s =>
      if mounted then
        Event.setSession s ::
        match s with
        | some sess => loadUserProfile sess.user profileRes
        | none => [Event.setLoading false]
      else []
  | GetSessionResult.thrown =>
      if mounted then
        [Event.setError (some "Failed to initialize authentication"), Event.setLoading false]
      else []

/-- The `onAuthStateChange` subscription callback, lines 104-118: under the
mounted flag it stores the new session, clears the error, and either loads
the profile or clears the user and loading. -/
def onAuthStateChange (mounted : Bool) (s : Option Session)
    (profileRes : Except String UserProfile) : List Event :=
  if mounted then
    Event.setSession s :: Event.setError none ::
    match s with
    | some sess => loadUserProfile sess.user profileRes
    | none => [Event.setUser none, Event.setLoading false]
  else []

/-- `signUp(email, password, userData)`, lines 144-191.  `res` is the
outcome of `supabase.auth.signUp`; `createUserRes` the outcome of
`dbHelpers.createUser`, whose failure the inner catch swallows (it is
logged only, so it influences neither the trace nor the result). -/
def signUp (email password : String) (userData : SignUpUserData)
    (res : Except String AuthData) (createUserRes : Except String Unit) :
    List Event × Except String AuthData :=
  let pre := [Event.setLoading true, Event.setError none, Event.net "supabase.auth.signUp"]
  match res with
  | Except.error e =>
      (pre ++ [Event.setError (some e), Event.setLoading false], Except.error e)
  | Except.ok data =>
      let mid := match data.user with
        | some _ => [Event.net "dbHelpers.createUser"]
        | none => []
      (pre ++ mid ++ [Event.setLoading false], Except.ok data)

/-- `signIn(email, password)`, lines 193-226.  `res` is the outcome of
`supabase.auth.signInWithPassword`; `lastLoginRes` the outcome of the
best-effort last-login update, swallowed by its own catch. -/
def signIn (email password : String) (res : Except String AuthData)
    (lastLoginRes : Except String Unit) :
    List Event × Except String AuthData :=
  let pre := [Event.setLoading true, Event.setError none,
    Event.net "supabase.auth.signInWithPassword"]
  match res with
  | Except.error e =>
      (pre ++ [Event.setError (some e), Event.setLoading false], Except.error e)
  | Except.ok data =>
      let mid := match data.user with
        | some _ => [Event.net "users.update last_login"]
        | none => []
      (pre ++ mid ++ [Event.setLoading false], Except.ok data)

/-- `signOut()`, lines 228-247.  `res` is the error of
`supabase.auth.signOut` (`none` on success).  On an error the function
throws before reaching the two clearing setters. -/
def signOut (res : Option String) : List Event × Except String Unit :=
  let pre := [Event.setLoading true, Event.setError none, Event.net "supabase.auth.signOut"]
  match res with
  | none =>
      (pre ++ [Event.setUser none, Event.setSession none, Event.setLoading false],
       Except.ok ())
  | some e =>
      (pre ++ [Event.setError (some e), Event.setLoading false], Except.error e)

/-- `updateProfile(updates)`, lines 249-292.  The `if (!user) throw` guard
runs before the try block, so with no user nothing at all happens: no
setter call, no network request.  `res` is the outcome of the
`users.update ... select().single()` round trip; the returned row carries
every column, so the object spread of the row over the previous profile
is the row itself. -/
def updateProfile (st : HookState) (updates : ProfileUpdates)
    (res : Except String UserProfile) :
    List Event × Except String UserProfile :=
  match st.user with
  | none => ([], Except.error "No user logged in")
  | some u =>
      let pre := [Event.setLoading true, Event.setError none, Event.net "users.update"]
      match res with
      | Except.ok row =>
          (pre ++ [Event.setUser (some { u with profile := some row }),
            Event.setLoading false], Except.ok row)
      | Except.error e =>
          (pre ++ [Event.setError (some "Failed to update profile"),
            Event.setLoading false], Except.error e)

/-- `resetPassword(email)`, lines 294-309: clears the error, issues the
reset request, and on failure records and rethrows the error.  It never
touches `loading`, `user` or `session`. -/
def resetPassword (email : String) (res : Option String) :
    List Event × Except String Unit :=
  let pre := [Event.setError none, Event.net "supabase.auth.resetPasswordForEmail"]
  match res with
  | none => (pre, Except.ok ())
  | some e => (pre ++ [Event.setError (some e)], Except.error e)

/-- `updatePassword(newPassword)`, lines 311-326: same shape as
`resetPassword` over `supabase.auth.updateUser`. -/
def updatePassword (newPassword : String) (res : Option String) :
    List Event × Except String Unit :=
  let pre := [Event.setError none, Event.net "supabase.auth.updateUser"]
  match res with
  | none => (pre, Except.ok ())
  | some e => (pre ++ [Event.setError (some e)], Except.error e)

/-- Concrete fixtures used by witnesses and counterexamples. -/
def user0 : User := { id := "u-1", email := some "a@b.com" }

def session0 : Session := { access_token := "tok-1", user := user0 }

def authUser0 : AuthUser := { toUser := user0, profile := none }

def profile0 : UserProfile :=
  { id := "u-1", full_name := "A B", phone_number := "+10000000", role := "patient" }

def userData0 : SignUpUserData := { full_name := "A B", phone_number := "+10000000" }

def authData0 : AuthData := { user := some user0, session := some session0 }

/-- A hook state in the authenticated configuration. -/
def stSignedIn : HookState :=
  { user := some authUser0, session := some session0, loading := false, error := none }

/-- Claim C1 as stated is false: when `supabase.auth.signOut` settles with
an error, the throw happens before the two clearing setters, so from the
authenticated state the session and user survive the call; here the
settled state still holds the original session and user. -/
theorem signOut_error_keeps_local_state :
    (run stSignedIn (signOut (some "network down")).1).session = some session0 ∧
    (run stSignedIn (signOut (some "network down")).1).user = some authUser0 ∧
    (signOut (some "network down")).2 = Except.error "network down" :=
  ⟨by decide, by decide, rfl⟩

/-- Claim C1, amended: on success `signOut` clears the user and session to
null and resolves; on a backend error it records the message, rethrows,
and leaves user and session unchanged. -/
theorem signOut_settles (st : HookState) (e : String) :
    ((run st (signOut none).1).user = none ∧
     (run st (signOut none).1).session = none ∧
     (signOut none).2 = Except.ok ()) ∧
    ((run st (signOut (some e)).1).user = st.user ∧
     (run st (signOut (some e)).1).session = st.session ∧
     (run st (signOut (some e)).1).error = some e ∧
     (signOut (some e)).2 = Except.error e) := by
  simp [signOut, run, applyEvent]

/-- Claim C3: the configuration status is "configured" exactly when both
strings are non-empty and neither equals its placeholder sentinel. -/
theorem isConfigured_iff (url key : String) :
    isConfigured url key = true ↔
      url ≠ "" ∧ key ≠ "" ∧ url ≠ "your_supabase_project_url_here" ∧
        key ≠ "your_supabase_anon_key_here" := by
  simp [isConfigured, and_assoc]

/-- Claim C3 instantiated at a concrete non-placeholder non-empty pair. -/
theorem isConfigured_iff_witness :
    isConfigured "https://proj.supabase.co" "anon-key-123" = true :=
  (isConfigured_iff "https://proj.supabase.co" "anon-key-123").mpr (by decide)

/-- Claim C4: `updateProfile` with no logged-in user fails at once with
"No user logged in", performs no effect at all (so in particular no
network request), and leaves the state exactly as it was. -/
theorem updateProfile_no_user (upd : ProfileUpdates) (st : HookState)
    (h : st.user = none) (res : Except String UserProfile) :
    (updateProfile st upd res).1 = [] ∧
    (updateProfile st upd res).2 = Except.error "No user logged in" ∧
    run st (updateProfile st upd res).1 = st := by
  simp [updateProfile, h, run]

/-- Claim C4 instantiated at the initial state. -/
theorem updateProfile_no_user_witness :
    (updateProfile initialState {} (Except.ok profile0)).1 = [] ∧
    (updateProfile initialState {} (Except.ok profile0)).2 =
      Except.error "No user logged in" ∧
    run initialState (updateProfile initialState {} (Except.ok profile0)).1 =
      initialState :=
  updateProfile_no_user {} initialState rfl (Except.ok profile0)

/-- Claim C5: when `getSession` resolves with an error object while the
hook is mounted, the code records the message and returns early; the
state is anonymous as claimed, but the early return skips
`setLoading(false)`, so `loading` remains true, against the claim. -/
theorem initial_session_error_result_state :
    (run initialState (getInitialSession true (GetSessionResult.err "boom")
      (Except.error "x"))).error = some "boom" ∧
    (run initialState (getInitialSession true (GetSessionResult.err "boom")
      (Except.error "x"))).session = none ∧
    (run initialState (getInitialSession true (GetSessionResult.err "boom")
      (Except.error "x"))).user = none ∧
    (run initialState (getInitialSession true (GetSessionResult.err "boom")
      (Except.error "x"))).loading = true := by decide

/-- Claim C7: a profile-load failure still stores the bare auth user, with
no profile attached, and clears loading. -/
theorem profile_load_failure_keeps_basic_user (u : User) (e : String) (st : HookState) :
    (run st (loadUserProfile u (Except.error e))).user =
      some { toUser := u, profile := none } ∧
    (run st (loadUserProfile u (Except.error e))).loading = false := by
  simp [loadUserProfile, run, applyEvent]

/-- The loading and error discipline of the four stateful operations: the
first setter call is `setLoading(true)`, the second `setError(null)`, and
whatever backend outcome occurs the settled state has `loading = false`
(the `finally` block). -/
def setsLoadingAndClearsError (evs : List Event) : Prop :=
  evs.head? = some (Event.setLoading true) ∧
  evs[1]? = some (Event.setError none) ∧
  ∀ st : HookState, (run st evs).loading = false

/-- Claim C2 as stated is false: `resetPassword` and `updatePassword` never
call `setLoading` at all (on success or failure), and `updateProfile`
invoked with no user performs no setter call either, so none of these
sets the loading flag to true on entry. -/
theorem resetPassword_never_sets_loading :
    (resetPassword "a@b.com" none).1.contains (Event.setLoading true) = false ∧
    (resetPassword "a@b.com" (some "bad email")).1.contains (Event.setLoading true) = false ∧
    (updatePassword "secret1" none).1.contains (Event.setLoading true) = false ∧
    (updatePassword "secret1" (some "weak password")).1.contains
      (Event.setLoading true) = false ∧
    (updateProfile initialState {} (Except.ok profile0)).1.contains
      (Event.setLoading true) = false := by decide

/-- Claim C2, amended: `signUp`, `signIn`, `signOut`, and `updateProfile`
when a user is logged in set loading true on entry, clear the error on
entry, and end with loading false whatever the outcome; `resetPassword`
and `updatePassword` clear the error on entry but never touch the loading
flag. -/
theorem operations_loading_discipline (email pw np : String) (ud : SignUpUserData)
    (upd : ProfileUpdates) (au : AuthUser) (st : HookState)
    (rA rB : Except String AuthData) (rP : Except String UserProfile)
    (rO rR rU : Option String) (cu ll : Except String Unit) :
    setsLoadingAndClearsError (signUp email pw ud rA cu).1 ∧
    setsLoadingAndClearsError (signIn email pw rB ll).1 ∧
    setsLoadingAndClearsError (signOut rO).1 ∧
    setsLoadingAndClearsError (updateProfile { st with user := some au } upd rP).1 ∧
    (resetPassword email rR).1.head? = some (Event.setError none) ∧
    (resetPassword email rR).1.contains (Event.setLoading true) = false ∧
    (resetPassword email rR).1.contains (Event.setLoading false) = false ∧
    (updatePassword np rU).1.head? = some (Event.setError none) ∧
    (updatePassword np rU).1.contains (Event.setLoading true) = false ∧
    (updatePassword np rU).1.contains (Event.setLoading false) = false := by
  refine ⟨?_, ?_, ?_, ?_, ?_, ?_, ?_, ?_, ?_, ?_⟩
  · rcases rA with e | d
    · simp [signUp, setsLoadingAndClearsError, run, applyEvent]
    · rcases hd : d.user with _ | u <;>
        simp [signUp, hd, setsLoadingAndClearsError, run, applyEvent]
  · rcases rB with e | d
    · simp [signIn, setsLoadingAndClearsError, run, applyEvent]
    · rcases hd : d.user with _ | u <;>
        simp [signIn, hd, setsLoadingAndClearsError, run, applyEvent]
  · rcases rO with _ | e <;> simp [signOut, setsLoadingAndClearsError, run, applyEvent]
  · rcases rP with e | row <;>
      simp [updateProfile, setsLoadingAndClearsError, run, applyEvent]
  · rcases rR with _ | e <;> simp [resetPassword]
  · rcases rR with _ | e <;> rfl
  · rcases rR with _ | e <;> rfl
  · rcases rU with _ | e <;> simp [updatePassword]
  · rcases rU with _ | e <;> rfl
  · rcases rU with _ | e <;> rfl

/-- Claim C6: when `supabase.auth.signUp` succeeds with a created user, the
profile insert is attempted, and the call resolves with the backend data
whatever that insert's outcome is (its failure is swallowed by the inner
catch). -/
theorem signUp_profile_failure_swallowed (email pw : String) (ud : SignUpUserData)
    (d : AuthData) (u : User) (hu : d.user = some u) (cu : Except String Unit) :
    (signUp email pw ud (Except.ok d) cu).2 = Except.ok d ∧
    (signUp email pw ud (Except.ok d) cu).1.contains
      (Event.net "dbHelpers.createUser") = true := by
  have ht : (signUp email pw ud (Except.ok d) cu).1 =
      [Event.setLoading true, Event.setError none, Event.net "supabase.auth.signUp",
       Event.net "dbHelpers.createUser", Event.setLoading false] := by
    simp [signUp, hu]
  exact ⟨rfl, by rw [ht]; rfl⟩

/-- Claim C6 instantiated at the scenario of the specification: sign up as
"a@b.com" with a failing profile insert still resolves with the backend
data. -/
theorem signUp_profile_failure_swallowed_witness :
    (signUp "a@b.com" "secret1" userData0 (Except.ok authData0)
      (Except.error "insert failed")).2 = Except.ok authData0 ∧
    (signUp "a@b.com" "secret1" userData0 (Except.ok authData0)
      (Except.error "insert failed")).1.contains
      (Event.net "dbHelpers.createUser") = true :=
  signUp_profile_failure_swallowed "a@b.com" "secret1" userData0 authData0 user0 rfl
    (Except.error "insert failed")

/-- Claim C8: a rejected `signIn` records the backend message in the error
field, rethrows it, and the user field, null before the call, is still
null after it. -/
theorem signIn_rejection_sets_error_only (email pw e : String)
    (ll : Except String Unit) (st : HookState) (h : st.user = none) :
    (run st (signIn email pw (Except.error e) ll).1).error = some e ∧
    (signIn email pw (Except.error e) ll).2 = Except.error e ∧
    (run st (signIn email pw (Except.error e) ll).1).user = none := by
  refine ⟨?_, rfl, ?_⟩ <;> simp [signIn, run, applyEvent, h]

/-- Claim C8 instantiated: wrong password from the initial state. -/
theorem signIn_rejection_sets_error_only_witness :
    (run initialState (signIn "a@b.com" "wrong"
      (Except.error "Invalid login credentials") (Except.ok ())).1).error =
      some "Invalid login credentials" ∧
    (signIn "a@b.com" "wrong" (Except.error "Invalid login credentials")
      (Except.ok ())).2 = Except.error "Invalid login credentials" ∧
    (run initialState (signIn "a@b.com" "wrong"
      (Except.error "Invalid login credentials") (Except.ok ())).1).user = none :=
  signIn_rejection_sets_error_only "a@b.com" "wrong" "Invalid login credentials"
    (Except.ok ()) initialState rfl

/-- Claim C9 as stated is false: the branch handling a `getSession` error
object runs before the mounted check, so even with the flag already false
at resolution (the owner unmounted mid-flight) the fetch still updates the
error field after teardown. -/
theorem unmounted_fetch_error_still_updates_state :
    (run initialState (getInitialSession false (GetSessionResult.err "boom")
      (Except.error "x"))).error = some "boom" ∧
    (getInitialSession false (GetSessionResult.err "boom")
      (Except.error "x")).contains (Event.setError (some "boom")) = true := by
  decide

/-- Claim C9, amended: with the mounted flag false at resolution, the
success path and the thrown path of the initial fetch perform no state
update at all, but the error-object path still sets the error field. -/
theorem mounted_flag_guards_two_of_three_paths (s : Option Session)
    (pr : Except String UserProfile) (e : String) (st : HookState) :
    run st (getInitialSession false (GetSessionResult.ok s) pr) = st ∧
    run st (getInitialSession false GetSessionResult.thrown pr) = st ∧
    (run st (getInitialSession false (GetSessionResult.err e) pr)).error = some e := by
  refine ⟨?_, ?_, ?_⟩ <;> simp [getInitialSession, run, applyEvent]

/-- Claim C10: the bodies of `signUp` and `signIn` never call `setUser` or
`setSession`; whatever the backend outcomes, the user and session fields
after either operation are exactly what they were before (any change comes
from the auth-state-change subscription instead). -/
theorem signUp_signIn_preserve_user_session (email pw : String) (ud : SignUpUserData)
    (rA rB : Except String AuthData) (cu ll : Except String Unit) (st : HookState) :
    (run st (signUp email pw ud rA cu).1).user = st.user ∧
    (run st (signUp email pw ud rA cu).1).session = st.session ∧
    (run st (signIn email pw rB ll).1).user = st.user ∧
    (run st (signIn email pw rB ll).1).session = st.session := by
  refine ⟨?_, ?_, ?_, ?_⟩
  · rcases rA with e | d
    · simp [signUp, run, applyEvent]
    · rcases hd : d.user with _ | u <;> simp [signUp, hd, run, applyEvent]
  · rcases rA with e | d
    · simp [signUp, run, applyEvent]
    · rcases hd : d.user with _ | u <;> simp [signUp, hd, run, applyEvent]
  · rcases rB with e | d
    · simp [signIn, run, applyEvent]
    · rcases hd : d.user with _ | u <;> simp [signIn, hd, run, applyEvent]
  · rcases rB with e | d
    · simp [signIn, run, applyEvent]
    · rcases hd : d.user with _ | u <;> simp [signIn, hd, run, applyEvent]

end UbuzimaHC
